import Mathlib

/-!
Shallow embedding of the core of the Superstore data-analysis agent:
`src/tools.py` (the three analysis tools) and `src/agent_patterns.py`
(the tool dispatcher `call_tool`, the structured function-calling loop
`enterprise_agent`, and the two-step text-convention loop
`enterprise_agent_new` with its text parser `call_tool_two_step`).

Modelling conventions:
- Python dict/str/float tool results are embedded as the `JVal` type
  (rationals stand for Python floats; `null` for Python `None`).
- A pandas DataFrame is rows-by-named-columns: each column is either a
  numeric column (`Option ℚ` cells, `none` = NaN) or an object column.
- Python exceptions are `Except String`: a raised exception is `.error`.
  The external Gemini model client is an oracle function; for the
  structured loop it maps a conversation history to a reply or a
  transport error, for the two-step loop it maps a prompt string to a
  text or a transport error.
- `print` observability aside, the dispatcher records which underlying
  analysis function it actually invoked as a list of `ExecEvent`s,
  mirroring the source's "-> Executing tool" trace prints; this makes
  "the underlying function was never invoked" a provable statement.
-/

/-! ## JSON-like values (Python dicts / strings / numbers returned by tools) -/

mutual

inductive JVal where
  | str (s : String)
  | num (q : ℚ)
  | null
  | arr (xs : JArr)
  | obj (fields : JObj)

inductive JArr where
  | nil
  | cons (v : JVal) (rest : JArr)

inductive JObj where
  | nil
  | cons (k : String) (v : JVal) (rest : JObj)

end

def JObj.ofList : List (String × JVal) → JObj
  | [] => .nil
  | (k, v) :: rest => .cons k v (JObj.ofList rest)

def JArr.ofList : List JVal → JArr
  | [] => .nil
  | v :: rest => .cons v (JArr.ofList rest)

def JVal.mkObj (l : List (String × JVal)) : JVal := .obj (JObj.ofList l)

def JObj.find : JObj → String → Option JVal
  | .nil, _ => none
  | .cons k v rest, key => if k = key then some v else JObj.find rest key

/-- Field lookup in an embedded Python dict result. -/
def JVal.getField : JVal → String → Option JVal
  | .obj fields, key => fields.find key
  | _, _ => none

/-- Python `{"error": msg}` dictionaries, the structured-error convention of
the tools and the dispatcher. -/
def errDict (msg : String) : JVal := JVal.mkObj [("error", JVal.str msg)]

mutual

/-- Python `str()` of a tool result, at the structural level (dict / string /
list syntax as produced by CPython's repr; numbers are rendered with the
rational-number printer rather than float notation, which no claim depends
on). Used by both loops to stringify a tool output before showing it to the
model. -/
def pyStr : JVal → String
  | .str s => "\x27" ++ s ++ "\x27"
  | .num q => toString q
  | .null => "None"
  | .arr xs => "[" ++ pyStrArr xs ++ "]"
  | .obj fields => "\x7b" ++ pyStrObj fields ++ "\x7d"

def pyStrArr : JArr → String
  | .nil => ""
  | .cons v .nil => pyStr v
  | .cons v rest => pyStr v ++ ", " ++ pyStrArr rest

def pyStrObj : JObj → String
  | .nil => ""
  | .cons k v .nil => "\x27" ++ k ++ "\x27: " ++ pyStr v
  | .cons k v rest => "\x27" ++ k ++ "\x27: " ++ pyStr v ++ ", " ++ pyStrObj rest

end

/-! ## DataFrame model -/

/-- A pandas column: numeric (cells are `none` for NaN) or object/categorical
(cells are `none` for missing). `pd.api.types.is_numeric_dtype` holds exactly
for `numeric` columns. -/
inductive ColData where
  | numeric (vals : List (Option ℚ))
  | object (vals : List (Option String))

def ColData.length : ColData → Nat
  | .numeric vs => vs.length
  | .object vs => vs.length

/-- The dtype tag that `df.dtypes.astype(str)` reports for the column. -/
def ColData.dtypeTag : ColData → String
  | .numeric _ => "float64"
  | .object _ => "object"

/-- Count of missing cells: `df[col].isnull().sum()`. -/
def ColData.missing : ColData → Nat
  | .numeric vs => (vs.filter (fun v => v.isNone)).length
  | .object vs => (vs.filter (fun v => v.isNone)).length

/-- In-memory tabular dataset: named, typed columns plus the row count
(`len(df)`); in a well-formed (rectangular) frame every column has length
`nrows`. -/
structure DataFrame where
  nrows : Nat
  cols : List (String × ColData)

/-- Python `df is None or df.empty` (pandas: some axis has length 0); the
`None` case is subsumed by emptiness in this embedding. -/
def DataFrame.isEmptyDf (df : DataFrame) : Bool :=
  df.nrows == 0 || df.cols.isEmpty

/-! ## Numeric helpers for `check_for_outliers` (tools.py lines 110-143) -/

/-- `series.dropna()`: the non-NaN values of a numeric column. -/
def dropna (vals : List (Option ℚ)) : List ℚ := vals.filterMap id

/-- Ascending sort used by the quantile computation. -/
def sortQ (xs : List ℚ) : List ℚ := xs.mergeSort (fun a b => decide (a ≤ b))

/-- pandas `Series.quantile(q)` with the default linear interpolation:
on the sorted data `s` of length `n`, with `h = (n-1)*q` and `i = ⌊h⌋`,
the result is `s[i] + (h - i) * (s[i+1] - s[i])`. -/
def quantile (xs : List ℚ) (q : ℚ) : ℚ :=
  let s := sortQ xs
  let n := s.length
  let h := ((n : ℚ) - 1) * q
  let i := (⌊h⌋).toNat
  let lo := s.getD i 0
  let hi := s.getD (i + 1) lo
  lo + (h - (i : ℚ)) * (hi - lo)

/-- Python 3 `round` to an integer: round-half-to-even (banker's rounding). -/
def roundHalfEven (q : ℚ) : ℤ :=
  if q - ⌊q⌋ < 1 / 2 then ⌊q⌋
  else if q - ⌊q⌋ > 1 / 2 then ⌊q⌋ + 1
  else if ⌊q⌋ % 2 = 0 then ⌊q⌋ else ⌊q⌋ + 1

/-- Python `round(x, 2)` on the embedded exact value. -/
def round2 (q : ℚ) : ℚ := (roundHalfEven (q * 100) : ℚ) / 100

/-- The 1.5-IQR fences computed by `check_for_outliers` from the non-NaN
data: `(Q1 - 1.5*IQR, Q3 + 1.5*IQR)`. -/
def outlierBounds (data : List ℚ) : ℚ × ℚ :=
  let Q1 := quantile data (1 / 4)
  let Q3 := quantile data (3 / 4)
  let IQR := Q3 - Q1
  (Q1 - 3 / 2 * IQR, Q3 + 3 / 2 * IQR)

/-- The row mask `(df[column_name] < lower_bound) | (df[column_name] > upper_bound)`
applied to one cell; pandas comparisons with NaN are `False`, so a NaN cell is
never selected as an outlier. -/
def cellOutlier (lower upper : ℚ) : Option ℚ → Bool
  | some x => decide (x < lower) || decide (upper < x)
  | none => false

/-! ## The three analysis tools (tools.py) -/

/-- `check_for_outliers(df, column_name)` (tools.py lines 110-143): IQR-method
outlier report. Order of checks as in the source: column missing or not
numeric; empty after dropna; otherwise quantiles, fences, the outlier mask
over the whole frame's column, and percentage over `len(df)`. -/
def check_for_outliers (df : DataFrame) (column_name : String) : JVal :=
  match df.cols.lookup column_name with
  | some (ColData.numeric vals) =>
    let data := dropna vals
    if data.isEmpty then
      errDict ("Column \x27" ++ column_name ++ "\x27 is empty after dropping NaN values.")
    else
      let b := outlierBounds data
      let outlier_count := (vals.filter (cellOutlier b.1 b.2)).length
      let total_count := df.nrows
      let outlier_percentage := ((outlier_count : ℚ) / (total_count : ℚ)) * 100
      JVal.mkObj
        [ ("column", JVal.str column_name),
          ("Q1", JVal.num (round2 (quantile data (1 / 4)))),
          ("Q3", JVal.num (round2 (quantile data (3 / 4)))),
          ("IQR", JVal.num (round2 (quantile data (3 / 4) - quantile data (1 / 4)))),
          ("lower_bound", JVal.num (round2 b.1)),
          ("upper_bound", JVal.num (round2 b.2)),
          ("outlier_count", JVal.num (outlier_count : ℚ)),
          ("outlier_percentage", JVal.num (round2 outlier_percentage)),
          ("note", JVal.str "Outliers are defined by the 1.5 * IQR rule.") ]
  | _ => errDict ("Column \x27" ++ column_name ++ "\x27 not found or is not numeric.")

/-- First-occurrence-order distinct values, as `pandas.Series.unique`. -/
def uniqFirst : List (Option String) → List (Option String)
  | [] => []
  | a :: l => a :: uniqFirst (l.filter (fun b => decide (b ≠ a)))
termination_by l => l.length
decreasing_by
  exact Nat.lt_succ_of_le (List.length_filter_le _ _)

/-- A cell rendered into the JSON-like result (NaN/None → `null`). -/
def cellToJVal : Option ℚ → JVal
  | some q => JVal.num q
  | none => JVal.null

def objCellToJVal : Option String → JVal
  | some s => JVal.str s
  | none => JVal.null

/-- `df.describe()` row for one numeric column, over its non-NaN values:
count, mean, min, quartiles, max (the standard deviation, an irrational
square root, is omitted from the embedding; no claim concerns it). -/
def describeCol (vals : List (Option ℚ)) : JVal :=
  let data := dropna vals
  JVal.mkObj
    [ ("count", JVal.num (data.length : ℚ)),
      ("mean", JVal.num (data.sum / (data.length : ℚ))),
      ("min", JVal.num (quantile data 0)),
      ("25%", JVal.num (quantile data (1 / 4))),
      ("50%", JVal.num (quantile data (1 / 2))),
      ("75%", JVal.num (quantile data (3 / 4))),
      ("max", JVal.num (quantile data 1)) ]

/-- The `categorical_metadata` entry for one object column (tools.py lines
30-43): `nunique()` excludes missing values; at most 50 distinct values are
sampled (`df[col].unique()`, first-occurrence order, missing included),
otherwise a truncation note. -/
def categoricalMeta (vals : List (Option String)) : Option JVal :=
  let unique_count := (vals.filterMap id).dedup.length
  if unique_count = 0 then none
  else if unique_count ≤ 50 then
    some (JVal.mkObj
      [ ("unique_count", JVal.num (unique_count : ℚ)),
        ("sample_values", JVal.arr (JArr.ofList ((uniqFirst vals).map objCellToJVal))) ])
  else
    some (JVal.mkObj
      [ ("unique_count", JVal.num (unique_count : ℚ)),
        ("note", "Too many unique values (" ++ toString unique_count ++ ") to list." |> JVal.str) ])

/-- One transposed head-sample column: the first five cells of a column,
keyed by original row index, as in `df.head().T.to_dict()`. -/
def headSampleCol : ColData → JVal
  | .numeric vs => JVal.mkObj (((vs.take 5).enum.map (fun p => (toString p.1, cellToJVal p.2))))
  | .object vs => JVal.mkObj (((vs.take 5).enum.map (fun p => (toString p.1, objCellToJVal p.2))))

/-- `data_summary(df)` (tools.py lines 8-47): structured summary dictionary —
shape, columns, missing counts, dtype tags, per-numeric-column descriptive
statistics, low-cardinality categorical samples, transposed head sample.
Treated by the spec as a black-box contract; embedded at the structure level. -/
def data_summary (df : DataFrame) : JVal :=
  if df.isEmptyDf then errDict "DataFrame is None or empty."
  else
    JVal.mkObj
      [ ("shape", JVal.arr (JArr.ofList [JVal.num (df.nrows : ℚ), JVal.num (df.cols.length : ℚ)])),
        ("columns", JVal.arr (JArr.ofList (df.cols.map (fun c => JVal.str c.1)))),
        ("missing_values", JVal.mkObj (df.cols.map (fun c => (c.1, JVal.num (c.2.missing : ℚ))))),
        ("data_types", JVal.mkObj (df.cols.map (fun c => (c.1, JVal.str c.2.dtypeTag)))),
        ("numerical_descriptive_stats",
          JVal.mkObj (df.cols.filterMap (fun c =>
            match c.2 with
            | ColData.numeric vs => some (c.1, describeCol vs)
            | ColData.object _ => none))),
        ("categorical_metadata",
          JVal.mkObj (df.cols.filterMap (fun c =>
            match c.2 with
            | ColData.numeric _ => none
            | ColData.object vs => (categoricalMeta vs).map (fun m => (c.1, m))))),
        ("head_sample_t", JVal.mkObj (df.cols.map (fun c => (c.1, headSampleCol c.2)))) ]

/-- The three fixed chart filenames `automated_eda` persists. -/
def edaChartFiles : List String :=
  ["sales_distribution.png", "category_performance.png", "discount_profit_scatter.png"]

/-- `automated_eda(df)` (tools.py lines 51-106): requires the five Superstore
columns, then renders three charts to fixed filenames and returns the mapping
of logical chart name to filename. Chart rendering (matplotlib) is
presentation and out of the dataset's scope; the returned dictionary is
embedded exactly. -/
def automated_eda (df : DataFrame) : JVal :=
  let required := ["sales", "profit", "category", "segment", "discount"]
  if required.all (fun c => (df.cols.lookup c).isSome) then
    JVal.mkObj
      [ ("sales_distribution_plot", JVal.str "sales_distribution.png"),
        ("category_performance_plot", JVal.str "category_performance.png"),
        ("discount_profit_scatter_plot", JVal.str "discount_profit_scatter.png") ]
  else errDict "Missing required columns for EDA."

/-! State-passing forms of the three tools. Each tool receives the dataset by
reference; in the source every statement only reads `df` (no assignment into
it anywhere in tools.py), so the state-passing translation returns the
dataset it received. -/

def data_summary_st (df : DataFrame) : JVal × DataFrame :=
  (data_summary df, df)

def automated_eda_st (df : DataFrame) : JVal × DataFrame :=
  (automated_eda df, df)

def check_for_outliers_st (df : DataFrame) (column_name : String) : JVal × DataFrame :=
  (check_for_outliers df column_name, df)

/-! ## Tool dispatcher (agent_patterns.py lines 11-41) -/

/-- The collaborating tool functions as the dispatcher sees them (imported
from tools.py). They may raise (`Except.error`), which the dispatcher does
not catch — the structured loop does. -/
structure ToolFns where
  data_summary : DataFrame → Except String JVal
  automated_eda : DataFrame → Except String JVal
  check_for_outliers : DataFrame → String → Except String JVal

/-- The real tool functions of tools.py: total, never raising. -/
def realToolFns : ToolFns where
  data_summary := fun df => Except.ok (data_summary df)
  automated_eda := fun df => Except.ok (automated_eda df)
  check_for_outliers := fun df c => Except.ok (check_for_outliers df c)

/-- Record of the dispatcher actually invoking an underlying analysis
function (mirrors the source's "-> Executing tool: ..." trace print, which
is emitted exactly when the function is about to be applied). -/
inductive ExecEvent where
  | ds
  | eda
  | outliers (column_name : String)

/-- `call_tool(name, df, **kwargs)` (agent_patterns.py lines 11-41): name
dispatch over the three registered tools; `check_for_outliers` validates the
presence of `column_name` in the kwargs before invoking; unknown names give
the structured error. Returns the invocation events together with the
result (`Except.error` = exception raised by the underlying function). -/
def call_tool (t : ToolFns) (name : String) (df : DataFrame)
    (kwargs : List (String × String)) : List ExecEvent × Except String JVal :=
  if name = "data_summary" then
    ([ExecEvent.ds], t.data_summary df)
  else if name = "automated_eda" then
    ([ExecEvent.eda], t.automated_eda df)
  else if name = "check_for_outliers" then
    match kwargs.lookup "column_name" with
    | none =>
      ([], Except.ok (errDict "Tool \x27check_for_outliers\x27 requires the \x27column_name\x27 parameter."))
    | some column_name =>
      ([ExecEvent.outliers column_name], t.check_for_outliers df column_name)
  else
    ([], Except.ok (errDict ("Unknown tool: " ++ name)))

/-! ## String helpers modelling the Python string operations used by the
two-step loop (strip, startswith, split, the paren-group regex). All are
defined on the character list, matching Python's semantics on the inputs the
loop produces (ASCII whitespace for `strip`; the regex `\((.*?)\)` on
newline-free strings). -/

/-- Whitespace stripped by Python `str.strip()` (ASCII subset). -/
def isSpaceChar (c : Char) : Bool :=
  c = ' ' || c = '\t' || c = '\n' || c = '\x0d' || c = '\x0b' || c = '\x0c'

/-- Python `s.strip()`. -/
def pyStrip (s : String) : String :=
  String.mk (((s.data.dropWhile isSpaceChar).reverse.dropWhile isSpaceChar).reverse)

/-- Python `s.startswith(t)`. -/
def pyStartsWith (s t : String) : Bool := t.data.isPrefixOf s.data

/-- Python slicing `s[:n]` (by code points, as Python slices by characters). -/
def pyTake (s : String) (n : Nat) : String := String.mk (s.data.take n)

/-- Worker for Python `s.split(sep)` with non-empty separator `s0 :: srest`:
`acc` holds the current piece reversed. Structural recursion on a fuel
counter (each step consumes at least one input character, so fuel
`length + 1` is enough and the base fuel case is unreachable). -/
def splitCharAux (s0 : Char) (srest : List Char) :
    Nat → List Char → List Char → List (List Char)
  | 0, _, acc => [acc.reverse]
  | _ + 1, [], acc => [acc.reverse]
  | fuel + 1, c :: rest, acc =>
    if (s0 :: srest).isPrefixOf (c :: rest) then
      acc.reverse :: splitCharAux s0 srest fuel (List.drop srest.length rest) []
    else
      splitCharAux s0 srest fuel rest (c :: acc)

/-- Python `s.split(sep)` for a non-empty separator (`s.split('')` raises in
Python and is never used by the source). -/
def pySplit (s sep : String) : List String :=
  match sep.data with
  | [] => [s]
  | c :: cs => (splitCharAux c cs (s.data.length + 1) s.data []).map String.mk

/-- Python `s.split(sep, 1)[1]`: everything after the first occurrence of
`sep` (used by the loop only when the occurrence exists). -/
def pySplitOnceTail (s sep : String) : String :=
  String.intercalate sep ((pySplit s sep).drop 1)

/-- The group of `re.search(r'\((.*?)\)', s)`: the characters between the
first `(` and the next `)` after it, if both exist (the source never feeds a
newline here, so the regex's `.` is any character). -/
def parenGroup (s : List Char) : Option (List Char) :=
  match s.dropWhile (fun c => decide (c ≠ '(')) with
  | [] => none
  | _ :: inner =>
    if inner.contains ')' then some (inner.takeWhile (fun c => decide (c ≠ ')'))) else none

/-! ## Conversation state and model client (structured loop) -/

/-- A tool-call request extracted from a model response
(`tool_call.name`, `dict(tool_call.args)`). -/
structure ToolCall where
  name : String
  args : List (String × String)

/-- One turn of the conversation history of `enterprise_agent`:
the seeded user turn, a model turn recording a functionCall part, or a tool
turn recording a functionResponse part. -/
inductive Turn where
  | user (text : String)
  | modelCall (tc : ToolCall)
  | toolResult (name : String) (response : JVal)

/-- A successful model response: the (possibly empty) list of tool-call
requests and the optional text (`None` or the empty string are both falsy
in the source's `elif response.text:`). -/
structure ModelReply where
  function_calls : List ToolCall
  text : Option String

/-- The conversation-state invariant of the spec: every tool-call request
turn is immediately followed by exactly one matching tool-result turn (and a
tool-result turn appears only there). -/
def wfHistory : List Turn → Bool
  | [] => true
  | Turn.user _ :: rest => wfHistory rest
  | Turn.modelCall tc :: Turn.toolResult n _ :: rest => n == tc.name && wfHistory rest
  | Turn.modelCall _ :: _ => false
  | Turn.toolResult _ _ :: _ => false

/-! ## Structured function-calling loop (agent_patterns.py lines 46-103) -/

def exhaustMsg : String :=
  "Agent exceeded maximum conversation turns without providing a final answer."

def noOutputMsg : String :=
  "Agent failed to generate a response or requested a tool not handled."

def apiErrMsg (turn : Nat) (e : String) : String :=
  "API ERROR during turn " ++ toString turn ++ ": " ++ e

/-- Loop body of `enterprise_agent`. `model` is the Gemini client as an
oracle from the conversation contents to a reply or a raised transport error.
The returned list logs, for every `generate_content` call actually issued,
the conversation history that was sent; its length is the number of model
calls. `turn` is the 0-based index of `for turn in range(max_turns)` and
`fuel` the remaining iterations. -/
def agentStep (t : ToolFns) (df : DataFrame)
    (model : List Turn → Except String ModelReply) :
    Nat → Nat → List Turn → List (List Turn) → String × List (List Turn)
  | 0, _turn, _hist, log => (exhaustMsg, log)
  | fuel + 1, turn, hist, log =>
    match model hist with
    | Except.error e => (apiErrMsg (turn + 1) e, log ++ [hist])
    | Except.ok resp =>
      match resp.function_calls with
      | tc :: _ =>
        match (call_tool t tc.name df tc.args).2 with
        | Except.ok data =>
          agentStep t df model fuel (turn + 1)
            (hist ++ [Turn.modelCall tc, Turn.toolResult tc.name data]) (log ++ [hist])
        | Except.error e =>
          agentStep t df model fuel (turn + 1)
            (hist ++ [Turn.modelCall tc,
              Turn.toolResult tc.name (errDict ("Internal tool execution error: " ++ e))])
            (log ++ [hist])
      | [] =>
        match resp.text with
        | some s => if s = "" then (noOutputMsg, log ++ [hist]) else (s, log ++ [hist])
        | none => (noOutputMsg, log ++ [hist])

/-- `enterprise_agent(user_query, df, client, model_name, tools_list,
system_instruction)`: seeds the history with the user turn and runs up to
`max_turns = 5` iterations. Returns the final answer string and the log of
conversation histories sent to the model (one entry per model call). -/
def enterprise_agent (t : ToolFns) (df : DataFrame)
    (model : List Turn → Except String ModelReply) (user_query : String) :
    String × List (List Turn) :=
  agentStep t df model 5 0 [Turn.user user_query] []

/-! ## Two-step text-convention loop (agent_patterns.py lines 108-188) -/

/-- The decision prompt built by `ask_model_for_action`. -/
def decision_prompt (user_query : String) : String :=
  "You are an assistant that can call local python tools. " ++
  "The ONLY valid tool names are: `data_summary`, `automated_eda`, `check_for_outliers(column_name:str)`. " ++
  "When appropriate, respond ONLY with exactly `TOOL:<tool_name>` (e.g. TOOL:automated_eda, or TOOL:check_for_outliers(column_name=\x27profit\x27)) to request a local tool, " ++
  "or respond with `RESPONSE:<your answer>` when you can answer directly. " ++
  "Do NOT include anything else. Now decide for this user query:\n\n" ++
  "User query: " ++ user_query ++ "\n"

/-- The step-2 interpretation prompt of `enterprise_agent_new`. -/
def followup_prompt (tool_call_string tool_output_str user_query : String) : String :=
  "The requested tool has been executed and produced the following output:\n\n" ++
  "TOOL: " ++ tool_call_string ++ "\n\nOUTPUT:\n" ++ tool_output_str ++ "\n\n" ++
  "Using the original user query and the tool output above, " ++
  "produce a helpful, concise summary and any actionable insights. " ++
  "Be explicit about the charts produced (if any) and mention their filenames so they can be viewed." ++
  "\n\nOriginal user query: " ++ user_query ++ "\n"

/-- The fallback prompt used when the decision matches neither prefix form. -/
def fallback_prompt (user_query decision : String) : String :=
  "User: " ++ user_query ++
  "\nThe agent decision was irregular (\x27" ++ decision ++
  "\x27). Please answer the user query directly and professionally."

/-- The text parser inside `call_tool_two_step` (agent_patterns.py lines
173-187): tool name is the stripped text before the first `(`; if a
parenthesis group exists, quote characters are removed and a `key=value`
split on the first `=` yields the single keyword argument. -/
def parse_tool_call (name_and_args : String) : String × List (String × String) :=
  let tool_name := pyStrip (String.mk (name_and_args.data.takeWhile (fun c => decide (c ≠ '('))))
  match parenGroup name_and_args.data with
  | none => (tool_name, [])
  | some grp =>
    let args_str :=
      pyStrip (String.mk (grp.filter (fun c => decide (c ≠ '\x27') && decide (c ≠ '"'))))
    if args_str.data.contains '=' then
      let key := String.mk (args_str.data.takeWhile (fun c => decide (c ≠ '=')))
      let value := String.mk ((args_str.data.dropWhile (fun c => decide (c ≠ '='))).drop 1)
      (tool_name, [(pyStrip key, pyStrip value)])
    else (tool_name, [])

/-- `call_tool_two_step(name_and_args, df)`: parse the tool string, then
dispatch through `call_tool`. -/
def call_tool_two_step (t : ToolFns) (df : DataFrame) (name_and_args : String) :
    List ExecEvent × Except String JVal :=
  let p := parse_tool_call name_and_args
  call_tool t p.1 df p.2

/-- Outcome of one `enterprise_agent_new` run: the prompts actually sent to
the model (one per `generate_content` call), the dispatcher's invocation
events, and the result — `Except.error` is an exception propagating to the
caller (the two-step loop has no try/except). -/
structure TwoStepRun where
  prompts : List String
  execs : List ExecEvent
  result : Except String String

/-- `enterprise_agent_new(user_query, df, client, model_name)`: step 1 asks
for a decision (`ask_model_for_action`, which strips the reply); on a
`TOOL:` decision the tool string after the marker is parsed and dispatched,
the stringified output is truncated to 20000 characters, and one follow-up
interpretation call is made; on `RESPONSE:` the rest of the decision is
returned directly; otherwise one fallback call is made. The model oracle
maps a prompt to the reply text or a raised transport error. -/
def enterprise_agent_new (t : ToolFns) (df : DataFrame)
    (model : String → Except String String) (user_query : String) : TwoStepRun :=
  let p1 := decision_prompt user_query
  match model p1 with
  | Except.error e => ⟨[p1], [], Except.error e⟩
  | Except.ok raw =>
    let decision := pyStrip raw
    if pyStartsWith decision "TOOL:" then
      let tool_call_string := pyStrip ((pySplit decision "TOOL:").getD 1 "")
      match call_tool_two_step t df tool_call_string with
      | (execs, Except.error e) => ⟨[p1], execs, Except.error e⟩
      | (execs, Except.ok tool_output) =>
        let tool_output_str := pyTake (pyStr tool_output) 20000
        let p2 := followup_prompt tool_call_string tool_output_str user_query
        match model p2 with
        | Except.error e => ⟨[p1, p2], execs, Except.error e⟩
        | Except.ok final => ⟨[p1, p2], execs, Except.ok final⟩
    else if pyStartsWith decision "RESPONSE:" then
      ⟨[p1], [], Except.ok (pyStrip (pySplitOnceTail decision "RESPONSE:"))⟩
    else
      let pf := fallback_prompt user_query decision
      match model pf with
      | Except.error e => ⟨[p1, pf], [], Except.error e⟩
      | Except.ok fb => ⟨[p1, pf], [], Except.ok fb⟩

set_option maxRecDepth 40000
set_option maxHeartbeats 1000000

/-! ## Concrete instances used by witnesses -/

/-- A trivial tool-function collaborator (tool behaviour is universally
quantified in the dispatcher claims; witnesses pick this instance). -/
def trivToolFns : ToolFns where
  data_summary := fun _ => Except.ok (JVal.mkObj [])
  automated_eda := fun _ => Except.ok (JVal.mkObj [])
  check_for_outliers := fun _ c => Except.ok (JVal.str c)

/-- The empty dataset. -/
def dfEmpty : DataFrame := ⟨0, []⟩

/-- A three-row dataset whose `profit` column has the constant non-NaN value
5 (one NaN): the IQR-zero scenario of the outlier claim. -/
def dfProfit : DataFrame := ⟨3, [("profit", ColData.numeric [some 5, some 5, none])]⟩

/-- A model oracle for the structured loop that always requests a
`data_summary` tool call. -/
def modelAlwaysTool : List Turn → Except String ModelReply :=
  fun _ => Except.ok ⟨[⟨"data_summary", []⟩], none⟩

/-- A model oracle for the two-step loop that answers the decision prompt
with a malformed decision and any other prompt with plain text. -/
def modelMaybe : String → Except String String :=
  fun p => if p = decision_prompt "q" then Except.ok "MAYBE:do something" else Except.ok "answer"

/-! ## Dispatcher claims -/

/-- Claim C7: for every tool name outside the registered set
{data_summary, automated_eda, check_for_outliers}, every dataset, every
argument mapping and every tool-function behaviour, `call_tool` returns
exactly the `{"error": "Unknown tool: <name>"}` dictionary, invokes no
underlying analysis function (empty invocation trace), and raises nothing
(the result is `Except.ok`). -/
theorem claim_C7_unknown_tool (t : ToolFns) (df : DataFrame)
    (kwargs : List (String × String)) (name : String)
    (h1 : name ≠ "data_summary") (h2 : name ≠ "automated_eda")
    (h3 : name ≠ "check_for_outliers") :
    call_tool t name df kwargs = ([], Except.ok (errDict ("Unknown tool: " ++ name))) := by
  simp [call_tool, h1, h2, h3]

/-- Witness for C7 at the concrete unknown name "mystery". -/
theorem claim_C7_unknown_tool_witness :
    ("mystery" ≠ "data_summary" ∧ "mystery" ≠ "automated_eda" ∧
      "mystery" ≠ "check_for_outliers") ∧
    call_tool trivToolFns "mystery" dfEmpty [("a", "b")] =
      ([], Except.ok (errDict ("Unknown tool: " ++ "mystery"))) :=
  ⟨⟨by decide, by decide, by decide⟩,
    claim_C7_unknown_tool trivToolFns dfEmpty [("a", "b")] "mystery"
      (by decide) (by decide) (by decide)⟩

/-- Claim C8: dispatching `check_for_outliers` with a keyword-argument
mapping lacking the key `column_name` always returns exactly the fixed
missing-parameter error, whatever the other arguments and the dataset, and
the underlying `check_for_outliers` function is never invoked (empty
invocation trace). -/
theorem claim_C8_missing_column_name (t : ToolFns) (df : DataFrame)
    (kwargs : List (String × String))
    (h : kwargs.lookup "column_name" = none) :
    call_tool t "check_for_outliers" df kwargs =
      ([], Except.ok (errDict
        "Tool \x27check_for_outliers\x27 requires the \x27column_name\x27 parameter.")) := by
  simp [call_tool, h]

/-- Witness for C8 with other kwargs supplied but no `column_name`. -/
theorem claim_C8_missing_column_name_witness :
    ([("col", "profit"), ("x", "y")].lookup "column_name" = none) ∧
    call_tool trivToolFns "check_for_outliers" dfEmpty [("col", "profit"), ("x", "y")] =
      ([], Except.ok (errDict
        "Tool \x27check_for_outliers\x27 requires the \x27column_name\x27 parameter.")) :=
  ⟨by decide,
    claim_C8_missing_column_name trivToolFns dfEmpty [("col", "profit"), ("x", "y")] (by decide)⟩

/-- Claim C10: dispatching `data_summary` or `automated_eda` through
`call_tool` ignores every supplied keyword argument: for every dataset,
argument mapping and tool behaviour, the outcome is exactly the
corresponding zero-argument tool function applied to the dataset alone
(together with its single invocation event), with no error for the
unexpected arguments. -/
theorem claim_C10_args_ignored (t : ToolFns) (df : DataFrame)
    (kwargs : List (String × String)) :
    call_tool t "data_summary" df kwargs = ([ExecEvent.ds], t.data_summary df) ∧
    call_tool t "automated_eda" df kwargs = ([ExecEvent.eda], t.automated_eda df) :=
  ⟨rfl, rfl⟩

/-- Claim C9: no tool invocation mutates the dataset. In the state-passing
embedding of tools.py (where each tool returns the dataset it operated on),
`data_summary`, `automated_eda` and `check_for_outliers` all return the
dataset unchanged: the source only reads `df` and never assigns into it. -/
theorem claim_C9_tools_readonly (df : DataFrame) (c : String) :
    (data_summary_st df).2 = df ∧ (automated_eda_st df).2 = df ∧
    (check_for_outliers_st df c).2 = df :=
  ⟨rfl, rfl, rfl⟩

/-! ## Structured-loop lemmas -/

/-- Appending a complete request/result pair (with matching name) preserves
the conversation-state invariant. -/
theorem wfHistory_append_pair (tc : ToolCall) (r : JVal) :
    ∀ xs, wfHistory xs = true →
      wfHistory (xs ++ [Turn.modelCall tc, Turn.toolResult tc.name r]) = true := by
  intro xs
  induction xs using wfHistory.induct with
  | case1 => intro _; simp [wfHistory]
  | case2 t rest ih => intro hw; rw [wfHistory] at hw; simpa [wfHistory] using ih hw
  | case3 tc' n x rest ih =>
    intro hw
    rw [wfHistory] at hw
    simp only [Bool.and_eq_true] at hw
    simpa [wfHistory, hw.1] using ih hw.2
  | case4 tc' rest h =>
    intro hw
    rw [wfHistory] at hw
    · exact absurd hw (by simp)
    · exact h
  | case5 n x rest => intro hw; rw [wfHistory] at hw; exact absurd hw (by simp)

/-- All conversation histories logged (one per model call) satisfy the
invariant, provided the starting history and previously logged ones do. -/
theorem agentStep_wf (t : ToolFns) (df : DataFrame)
    (model : List Turn → Except String ModelReply) :
    ∀ fuel turn hist log, wfHistory hist = true → (∀ h ∈ log, wfHistory h = true) →
      ∀ h ∈ (agentStep t df model fuel turn hist log).2, wfHistory h = true := by
  intro fuel
  induction fuel with
  | zero =>
    intro turn hist log _ hl h hm
    simp only [agentStep] at hm
    exact hl h hm
  | succ n ih =>
    intro turn hist log hw hl h hm
    have hl2 : ∀ h ∈ log ++ [hist], wfHistory h = true := by
      intro h2 hm2
      rcases List.mem_append.1 hm2 with h3 | h3
      · exact hl h2 h3
      · rw [List.mem_singleton.1 h3]; exact hw
    rw [agentStep] at hm
    cases hmod : model hist with
    | error e =>
      simp only [hmod] at hm
      exact hl2 h hm
    | ok resp =>
      simp only [hmod] at hm
      cases hfc : resp.function_calls with
      | nil =>
        simp only [hfc] at hm
        cases htext : resp.text with
        | none =>
          simp only [htext] at hm
          exact hl2 h hm
        | some s =>
          simp only [htext] at hm
          by_cases hs : s = ""
          · rw [if_pos hs] at hm
            exact hl2 h hm
          · rw [if_neg hs] at hm
            exact hl2 h hm
      | cons tc rest =>
        simp only [hfc] at hm
        cases hct : (call_tool t tc.name df tc.args).2 with
        | ok data =>
          simp only [hct] at hm
          exact ih (turn + 1) _ _ (wfHistory_append_pair tc data hist hw) hl2 h hm
        | error e =>
          simp only [hct] at hm
          exact ih (turn + 1) _ _ (wfHistory_append_pair tc _ hist hw) hl2 h hm

/-- Claim C1: in the structured function-calling loop, every conversation
history sent to the model satisfies the no-dangling-request invariant —
every tool-call request turn is immediately followed by exactly one matching
tool-result turn — for every tool behaviour (successful dispatch or a raised
tool exception alike), dataset, model behaviour and query. -/
theorem claim_C1_no_dangling_request (t : ToolFns) (df : DataFrame)
    (model : List Turn → Except String ModelReply) (q : String) :
    ∀ h ∈ (enterprise_agent t df model q).2, wfHistory h = true := by
  intro h hm
  exact agentStep_wf t df model 5 0 [Turn.user q] [] rfl (by simp) h hm

/-- A model oracle whose first reply requests a tool whose execution raises,
and whose second reply is final text: exercises the exception path of C1. -/
def modelToolThenText : List Turn → Except String ModelReply :=
  fun hist =>
    if hist.length = 1 then Except.ok ⟨[⟨"data_summary", []⟩], none⟩
    else Except.ok ⟨[], some "done"⟩

/-- Tool functions whose `data_summary` raises an exception. -/
def raisingToolFns : ToolFns where
  data_summary := fun _ => Except.error "boom"
  automated_eda := fun _ => Except.ok (JVal.mkObj [])
  check_for_outliers := fun _ c => Except.ok (JVal.str c)

/-- Witness for C1: the history sent on the second model call — after a
tool request whose execution raised — is in the log and satisfies the
invariant. -/
theorem claim_C1_no_dangling_request_witness :
    ([Turn.user "q", Turn.modelCall ⟨"data_summary", []⟩,
        Turn.toolResult "data_summary" (errDict "Internal tool execution error: boom")]
      ∈ (enterprise_agent raisingToolFns dfEmpty modelToolThenText "q").2) ∧
    wfHistory [Turn.user "q", Turn.modelCall ⟨"data_summary", []⟩,
        Turn.toolResult "data_summary" (errDict "Internal tool execution error: boom")] = true := by
  have hm : [Turn.user "q", Turn.modelCall ⟨"data_summary", []⟩,
      Turn.toolResult "data_summary" (errDict "Internal tool execution error: boom")]
      ∈ (enterprise_agent raisingToolFns dfEmpty modelToolThenText "q").2 := by
    have he : (enterprise_agent raisingToolFns dfEmpty modelToolThenText "q").2 =
        [[Turn.user "q"],
         [Turn.user "q", Turn.modelCall ⟨"data_summary", []⟩,
          Turn.toolResult "data_summary" (errDict "Internal tool execution error: boom")]] := rfl
    rw [he]
    exact List.mem_cons_of_mem _ (List.mem_cons_self _ _)
  exact ⟨hm, claim_C1_no_dangling_request raisingToolFns dfEmpty modelToolThenText "q" _ hm⟩

/-- The log never grows by more than one entry per remaining iteration. -/
theorem agentStep_log_length (t : ToolFns) (df : DataFrame)
    (model : List Turn → Except String ModelReply) :
    ∀ fuel turn hist log,
      ((agentStep t df model fuel turn hist log).2).length ≤ log.length + fuel := by
  intro fuel
  induction fuel with
  | zero =>
    intro turn hist log
    simp [agentStep]
  | succ n ih =>
    intro turn hist log
    rw [agentStep]
    split
    · simp only [List.length_append, List.length_cons, List.length_nil]
      omega
    · split
      · split
        · exact le_trans (ih _ _ _)
            (by simp only [List.length_append, List.length_cons, List.length_nil]; omega)
        · exact le_trans (ih _ _ _)
            (by simp only [List.length_append, List.length_cons, List.length_nil]; omega)
      · split
        · split
          · simp only [List.length_append, List.length_cons, List.length_nil]
            omega
          · simp only [List.length_append, List.length_cons, List.length_nil]
            omega
        · simp only [List.length_append, List.length_cons, List.length_nil]
          omega

/-- Entries already logged stay in the final log. -/
theorem agentStep_log_sub (t : ToolFns) (df : DataFrame)
    (model : List Turn → Except String ModelReply) :
    ∀ fuel turn hist log h, h ∈ log → h ∈ (agentStep t df model fuel turn hist log).2 := by
  intro fuel
  induction fuel with
  | zero =>
    intro turn hist log h hm
    simpa [agentStep] using hm
  | succ n ih =>
    intro turn hist log h hm
    rw [agentStep]
    split
    · exact List.mem_append_left _ hm
    · split
      · split
        · exact ih _ _ _ _ (List.mem_append_left _ hm)
        · exact ih _ _ _ _ (List.mem_append_left _ hm)
      · split
        · split
          · exact List.mem_append_left _ hm
          · exact List.mem_append_left _ hm
        · exact List.mem_append_left _ hm

/-- When at least one iteration remains, the history about to be sent ends
up in the final log. -/
theorem agentStep_hist_mem (t : ToolFns) (df : DataFrame)
    (model : List Turn → Except String ModelReply) :
    ∀ fuel turn hist log, hist ∈ (agentStep t df model (fuel + 1) turn hist log).2 := by
  intro fuel turn hist log
  rw [agentStep]
  split
  · exact List.mem_append_right _ (List.mem_singleton_self _)
  · split
    · split
      · exact agentStep_log_sub t df model _ _ _ _ _
          (List.mem_append_right _ (List.mem_singleton_self _))
      · exact agentStep_log_sub t df model _ _ _ _ _
          (List.mem_append_right _ (List.mem_singleton_self _))
    · split
      · split
        · exact List.mem_append_right _ (List.mem_singleton_self _)
        · exact List.mem_append_right _ (List.mem_singleton_self _)
      · exact List.mem_append_right _ (List.mem_singleton_self _)

/-- If every model call the loop actually performed returned a tool-call
request, the loop runs out of fuel and returns the exhaustion message. -/
theorem agentStep_exhaust (t : ToolFns) (df : DataFrame)
    (model : List Turn → Except String ModelReply) :
    ∀ fuel turn hist log,
      (∀ h ∈ (agentStep t df model fuel turn hist log).2,
        ∃ r, model h = Except.ok r ∧ r.function_calls ≠ []) →
      (agentStep t df model fuel turn hist log).1 = exhaustMsg := by
  intro fuel
  induction fuel with
  | zero => intro turn hist log _; rfl
  | succ n ih =>
    intro turn hist log H
    obtain ⟨r, hok, hne⟩ := H hist (agentStep_hist_mem t df model n turn hist log)
    rw [agentStep] at H ⊢
    simp only [hok] at H ⊢
    cases hfc : r.function_calls with
    | nil => exact absurd hfc hne
    | cons tc rest =>
      simp only [hfc] at H ⊢
      cases hct : (call_tool t tc.name df tc.args).2 with
      | ok data =>
        simp only [hct] at H ⊢
        exact ih _ _ _ H
      | error e =>
        simp only [hct] at H ⊢
        exact ih _ _ _ H

/-- Claim C2: the structured loop issues at most 5 model calls per run, and
whenever no performed model call yields final text, a missing-output
fallback, or a transport error — i.e. every performed call returns a reply
that requests a tool call — the run returns the fixed exhaustion message. -/
theorem claim_C2_turn_limit (t : ToolFns) (df : DataFrame)
    (model : List Turn → Except String ModelReply) (q : String) :
    ((enterprise_agent t df model q).2).length ≤ 5 ∧
    ((∀ h ∈ (enterprise_agent t df model q).2,
        ∃ r, model h = Except.ok r ∧ r.function_calls ≠ []) →
      (enterprise_agent t df model q).1 = exhaustMsg) :=
  ⟨by simpa using agentStep_log_length t df model 5 0 [Turn.user q] [],
   fun H => agentStep_exhaust t df model 5 0 [Turn.user q] [] H⟩

/-- Witness for C2: a model that always requests a tool call drives the
loop to the exhaustion message after at most 5 logged model calls. -/
theorem claim_C2_turn_limit_witness :
    ((enterprise_agent trivToolFns dfEmpty modelAlwaysTool "q").2).length ≤ 5 ∧
    (enterprise_agent trivToolFns dfEmpty modelAlwaysTool "q").1 = exhaustMsg :=
  ⟨(claim_C2_turn_limit trivToolFns dfEmpty modelAlwaysTool "q").1,
   (claim_C2_turn_limit trivToolFns dfEmpty modelAlwaysTool "q").2
     (fun _ _ => ⟨⟨[⟨"data_summary", []⟩], none⟩, rfl, by simp⟩)⟩

/-- In a log of histories that all received ok replies, extended by one more
history, an index holding a history whose reply is a transport error must be
the final one. -/
theorem log_snoc_error_cases (model : List Turn → Except String ModelReply)
    (log : List (List Turn)) (hist : List Turn) (h0 : List Turn) (j : Nat) (e : String)
    (Hok : ∀ h ∈ log, ∃ r, model h = Except.ok r)
    (hget : (log ++ [hist])[j]? = some h0)
    (herr : model h0 = Except.error e) :
    j = log.length ∧ h0 = hist := by
  by_cases hj : j < log.length
  · rw [List.getElem?_append_left hj] at hget
    obtain ⟨r, hr⟩ := Hok h0 (List.getElem?_mem hget)
    rw [hr] at herr
    exact absurd herr (by simp)
  · push_neg at hj
    have hlt : j < log.length + 1 := by
      by_contra hge
      push_neg at hge
      have hnone : (log ++ [hist])[j]? = none := List.getElem?_eq_none (by simpa using hge)
      rw [hnone] at hget
      exact absurd hget (by simp)
    have hj' : j = log.length := by omega
    subst hj'
    rw [List.getElem?_append_right (le_refl _)] at hget
    simp at hget
    exact ⟨rfl, hget.symm⟩

/-- If the model call at some logged position of the structured loop raised a
transport error, that position is the last logged call (the failure is not
retried and no further model call happens) and the run's return value is the
API-error string for that turn. -/
theorem agentStep_error_last (t : ToolFns) (df : DataFrame)
    (model : List Turn → Except String ModelReply) :
    ∀ fuel turn hist log,
      (∀ h ∈ log, ∃ r, model h = Except.ok r) →
      turn = log.length →
      ∀ (e : String) (j : Nat) (h0 : List Turn),
        ((agentStep t df model fuel turn hist log).2)[j]? = some h0 →
        model h0 = Except.error e →
        j + 1 = ((agentStep t df model fuel turn hist log).2).length ∧
        (agentStep t df model fuel turn hist log).1 = apiErrMsg (j + 1) e := by
  intro fuel
  induction fuel with
  | zero =>
    intro turn hist log Hok hturn e j h0 hget herr
    simp only [agentStep] at hget
    obtain ⟨r, hr⟩ := Hok h0 (List.getElem?_mem hget)
    rw [hr] at herr
    exact absurd herr (by simp)
  | succ n ih =>
    intro turn hist log Hok hturn e j h0 hget herr
    rw [agentStep] at hget ⊢
    cases hmod : model hist with
    | error e0 =>
      simp only [hmod] at hget ⊢
      obtain ⟨hj, hh⟩ := log_snoc_error_cases model log hist h0 j e Hok hget herr
      subst hh
      rw [hmod] at herr
      injection herr with he
      subst he
      refine ⟨by simp [hj], ?_⟩
      rw [hturn, hj]
    | ok resp =>
      simp only [hmod] at hget ⊢
      cases hfc : resp.function_calls with
      | nil =>
        simp only [hfc] at hget ⊢
        cases htext : resp.text with
        | some s =>
          simp only [htext] at hget ⊢
          by_cases hs : s = ""
          · rw [if_pos hs] at hget ⊢
            obtain ⟨_, hh⟩ := log_snoc_error_cases model log hist h0 j e Hok hget herr
            subst hh
            rw [hmod] at herr
            exact absurd herr (by simp)
          · rw [if_neg hs] at hget ⊢
            obtain ⟨_, hh⟩ := log_snoc_error_cases model log hist h0 j e Hok hget herr
            subst hh
            rw [hmod] at herr
            exact absurd herr (by simp)
        | none =>
          simp only [htext] at hget ⊢
          obtain ⟨_, hh⟩ := log_snoc_error_cases model log hist h0 j e Hok hget herr
          subst hh
          rw [hmod] at herr
          exact absurd herr (by simp)
      | cons tc rest =>
        simp only [hfc] at hget ⊢
        have Hok2 : ∀ h ∈ log ++ [hist], ∃ r, model h = Except.ok r := by
          intro h2 hm2
          rcases List.mem_append.1 hm2 with h3 | h3
          · exact Hok h2 h3
          · rw [List.mem_singleton.1 h3]; exact ⟨resp, hmod⟩
        have hturn2 : turn + 1 = (log ++ [hist]).length := by
          simp [hturn]
        cases hct : (call_tool t tc.name df tc.args).2 with
        | ok data =>
          simp only [hct] at hget ⊢
          exact ih (turn + 1) _ (log ++ [hist]) Hok2 hturn2 e j h0 hget herr
        | error e2 =>
          simp only [hct] at hget ⊢
          exact ih (turn + 1) _ (log ++ [hist]) Hok2 hturn2 e j h0 hget herr

/-- Claim C3, amended: a model-call transport failure is never retried in
either loop. In the structured loop `enterprise_agent` it is terminal and
surfaced to the caller as the descriptive API-error string return value (the
failing call is the last model call of the run). In the two-step loop
`enterprise_agent_new`, which has no try/except, a transport failure at any
of its model calls — the decision call, the follow-up interpretation call or
the fallback call — is likewise the last model call issued, but it is not
surfaced as a string: it propagates to the caller as the raised exception
itself; in particular a failing decision call yields exactly the one-prompt
run whose outcome is the propagated exception. -/
theorem claim_C3_transport_failure (t : ToolFns) (df : DataFrame)
    (model : List Turn → Except String ModelReply) (q : String)
    (t2 : ToolFns) (df2 : DataFrame) (model2 : String → Except String String) (q2 : String) :
    (∀ (e : String) (j : Nat) (h0 : List Turn),
      ((enterprise_agent t df model q).2)[j]? = some h0 →
      model h0 = Except.error e →
      j + 1 = ((enterprise_agent t df model q).2).length ∧
      (enterprise_agent t df model q).1 = apiErrMsg (j + 1) e) ∧
    (∀ (e2 : String) (j : Nat) (p : String),
      ((enterprise_agent_new t2 df2 model2 q2).prompts)[j]? = some p →
      model2 p = Except.error e2 →
      j + 1 = ((enterprise_agent_new t2 df2 model2 q2).prompts).length ∧
      (enterprise_agent_new t2 df2 model2 q2).result = Except.error e2) ∧
    (∀ e2 : String, model2 (decision_prompt q2) = Except.error e2 →
      enterprise_agent_new t2 df2 model2 q2 = ⟨[decision_prompt q2], [], Except.error e2⟩) := by
  refine ⟨?_, ?_, ?_⟩
  · intro e j h0 hget herr
    exact agentStep_error_last t df model 5 0 [Turn.user q] [] (by simp) rfl e j h0 hget herr
  · cases hmod : model2 (decision_prompt q2) with
    | error e0 =>
      simp only [enterprise_agent_new, hmod]
      intro e2 j p hget herr
      rcases j with _ | j
      · simp at hget
        subst hget
        rw [hmod] at herr
        injection herr with he
        subst he
        exact ⟨rfl, rfl⟩
      · simp at hget
    | ok raw =>
      cases hT : pyStartsWith (pyStrip raw) "TOOL:" with
      | true =>
        simp only [enterprise_agent_new, hmod, hT]
        rw [if_pos trivial]
        split
        · intro e2 j p hget herr
          rcases j with _ | j
          · simp at hget
            subst hget
            rw [hmod] at herr
            exact absurd herr (by simp)
          · simp at hget
        · split
          · intro e2 j p hget herr
            rcases j with _ | _ | j
            · simp at hget
              subst hget
              rw [hmod] at herr
              exact absurd herr (by simp)
            · simp only [List.getElem?_cons_succ, List.getElem?_cons_zero,
                Option.some.injEq] at hget
              subst hget
              rename_i heq
              rw [heq] at herr
              injection herr with he
              subst he
              exact ⟨rfl, rfl⟩
            · simp at hget
          · intro e2 j p hget herr
            rcases j with _ | _ | j
            · simp at hget
              subst hget
              rw [hmod] at herr
              exact absurd herr (by simp)
            · simp only [List.getElem?_cons_succ, List.getElem?_cons_zero,
                Option.some.injEq] at hget
              subst hget
              rename_i heq
              rw [heq] at herr
              exact absurd herr (by simp)
            · simp at hget
      | false =>
        simp only [enterprise_agent_new, hmod, hT]
        rw [if_neg (by simp)]
        cases hR : pyStartsWith (pyStrip raw) "RESPONSE:" with
        | true =>
          rw [if_pos rfl]
          intro e2 j p hget herr
          rcases j with _ | j
          · simp at hget
            subst hget
            rw [hmod] at herr
            exact absurd herr (by simp)
          · simp at hget
        | false =>
          rw [if_neg (by simp)]
          split
          · intro e2 j p hget herr
            rcases j with _ | _ | j
            · simp at hget
              subst hget
              rw [hmod] at herr
              exact absurd herr (by simp)
            · simp at hget
              subst hget
              rename_i heq
              rw [heq] at herr
              injection herr with he
              subst he
              exact ⟨rfl, rfl⟩
            · simp at hget
          · intro e2 j p hget herr
            rcases j with _ | _ | j
            · simp at hget
              subst hget
              rw [hmod] at herr
              exact absurd herr (by simp)
            · simp at hget
              subst hget
              rename_i heq
              rw [heq] at herr
              exact absurd herr (by simp)
            · simp at hget
  · intro e2 he
    simp [enterprise_agent_new, he]

/-- The structured-loop model oracle that always fails with a transport
error. -/
def modelErrS : List Turn → Except String ModelReply := fun _ => Except.error "boom"

/-- The two-step-loop model oracle that always fails with a transport
error. -/
def modelErrT : String → Except String String := fun _ => Except.error "boom"

/-- A two-step model oracle whose decision call succeeds with a
`TOOL:data_summary` decision and whose follow-up interpretation call raises
a transport error. -/
def modelFailFollowup : String → Except String String :=
  fun p =>
    if p = decision_prompt "q" then Except.ok "TOOL:data_summary"
    else Except.error "boom"

/-- Witness for the amended C3: with a failing model client the structured
loop returns the turn-1 API-error string after exactly one logged call; a
two-step run whose follow-up interpretation call fails ends at that second
call with the error propagated; and a failing decision call yields exactly
the one-prompt run with the propagated error. -/
theorem claim_C3_transport_failure_witness :
    (((enterprise_agent trivToolFns dfEmpty modelErrS "q").2)[0]? = some [Turn.user "q"] ∧
      modelErrS [Turn.user "q"] = Except.error "boom" ∧
      0 + 1 = ((enterprise_agent trivToolFns dfEmpty modelErrS "q").2).length ∧
      (enterprise_agent trivToolFns dfEmpty modelErrS "q").1 = apiErrMsg (0 + 1) "boom") ∧
    (((enterprise_agent_new trivToolFns dfEmpty modelFailFollowup "q").prompts)[1]? =
        some (followup_prompt "data_summary" (pyTake (pyStr (JVal.mkObj [])) 20000) "q") ∧
      modelFailFollowup
          (followup_prompt "data_summary" (pyTake (pyStr (JVal.mkObj [])) 20000) "q") =
        Except.error "boom" ∧
      1 + 1 = ((enterprise_agent_new trivToolFns dfEmpty modelFailFollowup "q").prompts).length ∧
      (enterprise_agent_new trivToolFns dfEmpty modelFailFollowup "q").result =
        Except.error "boom") ∧
    (modelErrT (decision_prompt "q") = Except.error "boom" ∧
      enterprise_agent_new trivToolFns dfEmpty modelErrT "q" =
        ⟨[decision_prompt "q"], [], Except.error "boom"⟩) :=
  ⟨⟨rfl, rfl,
    (claim_C3_transport_failure trivToolFns dfEmpty modelErrS "q"
      trivToolFns dfEmpty modelFailFollowup "q").1 "boom" 0 [Turn.user "q"] rfl rfl⟩,
   ⟨rfl, rfl,
    (claim_C3_transport_failure trivToolFns dfEmpty modelErrS "q"
      trivToolFns dfEmpty modelFailFollowup "q").2.1 "boom" 1
      (followup_prompt "data_summary" (pyTake (pyStr (JVal.mkObj [])) 20000) "q") rfl rfl⟩,
   ⟨rfl,
    (claim_C3_transport_failure trivToolFns dfEmpty modelErrS "q"
      trivToolFns dfEmpty modelErrT "q").2.2 "boom" rfl⟩⟩

/-- Counterexample to C3 as stated: in the two-step loop a model-call
transport failure at the decision step is NOT surfaced as a string return
value — the run's outcome is the propagated exception itself
(`Except.error "boom"`), contradicting "no exception of any kind is
propagated to the caller of either loop". -/
theorem claim_C3_counterexample :
    (enterprise_agent_new trivToolFns dfEmpty modelErrT "q").result =
      Except.error "boom" := rfl

/-- Claim C4, amended: the two-step loop issues at most 2 model calls per
run, and whenever 2 are issued the trimmed decision either starts with
`TOOL:` (decision + follow-up interpretation call) or matches neither
`TOOL:` nor `RESPONSE:` (decision + fallback call); a `RESPONSE:` decision
or a step-1 transport failure yields fewer than 2. -/
theorem claim_C4_two_calls (t : ToolFns) (df : DataFrame)
    (model : String → Except String String) (q : String) :
    ((enterprise_agent_new t df model q).prompts).length ≤ 2 ∧
    (((enterprise_agent_new t df model q).prompts).length = 2 →
      ∃ raw, model (decision_prompt q) = Except.ok raw ∧
        (pyStartsWith (pyStrip raw) "TOOL:" = true ∨
          (pyStartsWith (pyStrip raw) "TOOL:" = false ∧
            pyStartsWith (pyStrip raw) "RESPONSE:" = false))) := by
  cases hmod : model (decision_prompt q) with
  | error e => simp [enterprise_agent_new, hmod]
  | ok raw =>
    cases hT : pyStartsWith (pyStrip raw) "TOOL:" with
    | true =>
      simp only [enterprise_agent_new, hmod, hT]
      rw [if_pos trivial]
      refine ⟨?_, fun _ => ⟨raw, rfl, Or.inl hT⟩⟩
      split
      · simp
      · split
        · simp
        · simp
    | false =>
      simp only [enterprise_agent_new, hmod, hT]
      rw [if_neg (by simp)]
      cases hR : pyStartsWith (pyStrip raw) "RESPONSE:" with
      | true =>
        rw [if_pos rfl]
        exact ⟨by simp, by simp⟩
      | false =>
        rw [if_neg (by simp)]
        refine ⟨?_, fun _ => ⟨raw, rfl, Or.inr ⟨hT, hR⟩⟩⟩
        split
        · simp
        · simp

/-- Counterexample to C4 as stated: with a model whose decision is
`MAYBE:do something` (matching neither prefix), the two-step loop issues
exactly 2 model calls — the decision call plus the fallback call — even
though the trimmed decision does not start with `TOOL:`. -/
theorem claim_C4_counterexample :
    ((enterprise_agent_new trivToolFns dfEmpty modelMaybe "q").prompts).length = 2 ∧
    pyStartsWith (pyStrip "MAYBE:do something") "TOOL:" = false :=
  ⟨rfl, rfl⟩

/-- Witness for the amended C4 at the fallback scenario. -/
theorem claim_C4_two_calls_witness :
    ((enterprise_agent_new trivToolFns dfEmpty modelMaybe "q").prompts).length ≤ 2 ∧
    (∃ raw, modelMaybe (decision_prompt "q") = Except.ok raw ∧
      (pyStartsWith (pyStrip raw) "TOOL:" = true ∨
        (pyStartsWith (pyStrip raw) "TOOL:" = false ∧
          pyStartsWith (pyStrip raw) "RESPONSE:" = false))) :=
  ⟨(claim_C4_two_calls trivToolFns dfEmpty modelMaybe "q").1,
   (claim_C4_two_calls trivToolFns dfEmpty modelMaybe "q").2 rfl⟩

/-- Claim C6: with decision text exactly
`TOOL:check_for_outliers(column_name='profit')`, the text-convention parser
extracts tool name `check_for_outliers` and the single argument mapping
`{"column_name": "profit"}` (quotes stripped, split on the first `=`), the
call is dispatched through the dispatcher to the underlying
`check_for_outliers` function, and exactly one follow-up interpretation
model call is issued, whose text is the run's return value. -/
theorem claim_C6_two_step_scenario (t : ToolFns) (df : DataFrame)
    (model : String → Except String String) (q : String) (out : JVal) (r2 : String)
    (hdec : model (decision_prompt q) =
      Except.ok "TOOL:check_for_outliers(column_name=\x27profit\x27)")
    (htool : t.check_for_outliers df "profit" = Except.ok out)
    (hfu : model (followup_prompt "check_for_outliers(column_name=\x27profit\x27)"
      (pyTake (pyStr out) 20000) q) = Except.ok r2) :
    parse_tool_call "check_for_outliers(column_name=\x27profit\x27)" =
      ("check_for_outliers", [("column_name", "profit")]) ∧
    enterprise_agent_new t df model q =
      ⟨[decision_prompt q,
        followup_prompt "check_for_outliers(column_name=\x27profit\x27)"
          (pyTake (pyStr out) 20000) q],
        [ExecEvent.outliers "profit"], Except.ok r2⟩ := by
  refine ⟨by decide, ?_⟩
  simp only [enterprise_agent_new, hdec]
  rw [if_pos (by decide)]
  rw [show pyStrip ((pySplit
      (pyStrip "TOOL:check_for_outliers(column_name=\x27profit\x27)") "TOOL:").getD 1 "") =
      "check_for_outliers(column_name=\x27profit\x27)" from by decide]
  rw [show call_tool_two_step t df "check_for_outliers(column_name=\x27profit\x27)" =
      ([ExecEvent.outliers "profit"], t.check_for_outliers df "profit") from rfl]
  rw [htool]
  simp only [hfu]


/-- A model oracle that answers the decision prompt with the C6 tool-call
decision and any other prompt with "done". -/
def modelC6 : String → Except String String :=
  fun p =>
    if p = decision_prompt "hello" then
      Except.ok "TOOL:check_for_outliers(column_name=\x27profit\x27)"
    else Except.ok "done"

/-- Witness for C6 with the real tool functions on the constant `profit`
column dataset. -/
theorem claim_C6_two_step_scenario_witness :
    (modelC6 (decision_prompt "hello") =
        Except.ok "TOOL:check_for_outliers(column_name=\x27profit\x27)" ∧
      realToolFns.check_for_outliers dfProfit "profit" =
        Except.ok (check_for_outliers dfProfit "profit") ∧
      modelC6 (followup_prompt "check_for_outliers(column_name=\x27profit\x27)"
          (pyTake (pyStr (check_for_outliers dfProfit "profit")) 20000) "hello") =
        Except.ok "done") ∧
    (parse_tool_call "check_for_outliers(column_name=\x27profit\x27)" =
      ("check_for_outliers", [("column_name", "profit")]) ∧
    enterprise_agent_new realToolFns dfProfit modelC6 "hello" =
      ⟨[decision_prompt "hello",
        followup_prompt "check_for_outliers(column_name=\x27profit\x27)"
          (pyTake (pyStr (check_for_outliers dfProfit "profit")) 20000) "hello"],
        [ExecEvent.outliers "profit"], Except.ok "done"⟩) :=
  ⟨⟨rfl, rfl, rfl⟩,
   claim_C6_two_step_scenario realToolFns dfProfit modelC6 "hello"
     (check_for_outliers dfProfit "profit") "done" rfl rfl rfl⟩

/-- On a nonempty list whose entries all equal `v`, any quantile in `[0, 1]`
is `v` (sorting preserves membership and length; the interpolation collapses). -/
theorem quantile_const (xs : List ℚ) (v q : ℚ) (hne : xs ≠ [])
    (hq0 : 0 ≤ q) (hq1 : q ≤ 1) (hall : ∀ x ∈ xs, x = v) :
    quantile xs q = v := by
  have hmem : ∀ y ∈ sortQ xs, y = v := by
    intro y hy
    exact hall y (List.mem_mergeSort.1 hy)
  have hlen : (sortQ xs).length = xs.length := by
    unfold sortQ
    exact List.length_mergeSort xs
  have hpos : 0 < (sortQ xs).length := by
    rw [hlen]
    exact List.length_pos.2 hne
  simp only [quantile]
  set s := sortQ xs with hs
  set n := s.length with hn
  set hqv := ((n : ℚ) - 1) * q with hhq
  have hone : (1 : ℚ) ≤ (n : ℚ) := by exact_mod_cast hpos
  have h0 : 0 ≤ hqv := mul_nonneg (by linarith) hq0
  have hle : hqv ≤ (n : ℚ) - 1 := by
    calc hqv = ((n : ℚ) - 1) * q := rfl
      _ ≤ ((n : ℚ) - 1) * 1 := by
          exact mul_le_mul_of_nonneg_left hq1 (by linarith)
      _ = (n : ℚ) - 1 := mul_one _
  have hfl0 : 0 ≤ ⌊hqv⌋ := Int.le_floor.2 (by exact_mod_cast h0)
  have hfln : ⌊hqv⌋ ≤ (n : ℤ) - 1 := by
    have hff := Int.floor_le_floor hle
    rwa [show ((n : ℚ) - 1) = (((n : ℤ) - 1 : ℤ) : ℚ) by push_cast; ring,
      Int.floor_intCast] at hff
  have hi : (⌊hqv⌋).toNat < n := by omega
  have hlo : s.getD (⌊hqv⌋).toNat 0 = v := by
    rw [List.getD_eq_getElem?_getD, List.getElem?_eq_getElem hi]
    exact hmem _ (List.getElem_mem _)
  have hhi : s.getD ((⌊hqv⌋).toNat + 1) (s.getD (⌊hqv⌋).toNat 0) = v := by
    by_cases hlt : (⌊hqv⌋).toNat + 1 < n
    · rw [List.getD_eq_getElem?_getD, List.getElem?_eq_getElem hlt]
      exact hmem _ (List.getElem_mem _)
    · rw [List.getD_eq_getElem?_getD, List.getElem?_eq_none (by omega)]
      simpa using hlo
  rw [hhi, hlo]
  ring

/-- Spec-side predicate, from the claim's words: the row's cell holds a
numeric value different from `v` (a NaN cell has no value, so it does not
differ). -/
def spec_differsFrom (v : ℚ) : Option ℚ → Bool
  | some x => decide (x ≠ v)
  | none => false

/-- Claim C5: for `check_for_outliers` on a column whose non-NaN values all
equal a single value `v` (so IQR = 0), the computed lower and upper fences
both equal `v`, every row whose (numeric) value differs from `v` is
classified as an outlier by the row mask, and the returned
`outlier_percentage` equals `round(100 * #differing-rows / len(df), 2)`.
The fences asserted are the ones the classification uses; the returned
dictionary additionally rounds them to 2 decimals. -/
theorem claim_C5_iqr_zero (df : DataFrame) (c : String) (vals : List (Option ℚ)) (v : ℚ)
    (hcol : df.cols.lookup c = some (ColData.numeric vals))
    (hrect : vals.length = df.nrows)
    (hne : dropna vals ≠ [])
    (hall : ∀ x ∈ dropna vals, x = v) :
    (outlierBounds (dropna vals)).1 = v ∧
    (outlierBounds (dropna vals)).2 = v ∧
    (∀ x : ℚ, some x ∈ vals → x ≠ v →
      cellOutlier (outlierBounds (dropna vals)).1 (outlierBounds (dropna vals)).2
        (some x) = true) ∧
    (check_for_outliers df c).getField "outlier_percentage" =
      some (JVal.num (round2
        (100 * ((vals.filter (spec_differsFrom v)).length : ℚ) / (df.nrows : ℚ)))) := by
  have hQ1 : quantile (dropna vals) (1 / 4) = v :=
    quantile_const _ v _ hne (by norm_num) (by norm_num) hall
  have hQ3 : quantile (dropna vals) (3 / 4) = v :=
    quantile_const _ v _ hne (by norm_num) (by norm_num) hall
  have hb : outlierBounds (dropna vals) = (v, v) := by
    simp only [outlierBounds]
    rw [hQ1, hQ3]
    norm_num
  have hsome : ∀ x : ℚ, some x ∈ vals → x = v := by
    intro x hx
    exact hall x (by simpa [dropna] using List.mem_filterMap.2 ⟨some x, hx, rfl⟩)
  have hcnt : vals.filter
      (cellOutlier (outlierBounds (dropna vals)).1 (outlierBounds (dropna vals)).2) = [] := by
    rw [hb]
    apply List.filter_eq_nil_iff.2
    intro a ha
    cases a with
    | none => simp [cellOutlier]
    | some x =>
      have hxv := hsome x ha
      subst hxv
      simp [cellOutlier]
  have hdiff : vals.filter (spec_differsFrom v) = [] := by
    apply List.filter_eq_nil_iff.2
    intro a ha
    cases a with
    | none => simp [spec_differsFrom]
    | some x =>
      have hxv := hsome x ha
      subst hxv
      simp [spec_differsFrom]
  refine ⟨by rw [hb], by rw [hb], ?_, ?_⟩
  · intro x hx hxv
    exact absurd (hsome x hx) hxv
  · have hie : ¬((dropna vals).isEmpty = true) := by
      simpa [List.isEmpty_iff] using hne
    simp only [check_for_outliers, hcol]
    rw [if_neg hie]
    simp only [JVal.mkObj, JObj.ofList, JVal.getField, JObj.find]
    rw [if_neg (by decide), if_neg (by decide), if_neg (by decide), if_neg (by decide),
      if_neg (by decide), if_neg (by decide), if_neg (by decide), if_pos trivial]
    rw [hcnt, hdiff]
    simp

/-- Witness for C5 on the three-row `profit` dataset with constant non-NaN
value 5 and one NaN: fences collapse to 5 and the percentage is 0. -/
theorem claim_C5_iqr_zero_witness :
    (dfProfit.cols.lookup "profit" =
        some (ColData.numeric [some 5, some 5, none]) ∧
      ([some (5 : ℚ), some 5, none] : List (Option ℚ)).length = dfProfit.nrows ∧
      dropna [some 5, some 5, none] ≠ [] ∧
      ∀ x ∈ dropna [some 5, some 5, none], x = (5 : ℚ)) ∧
    ((outlierBounds (dropna [some 5, some 5, none])).1 = 5 ∧
      (outlierBounds (dropna [some 5, some 5, none])).2 = 5 ∧
      (∀ x : ℚ, some x ∈ ([some (5 : ℚ), some 5, none] : List (Option ℚ)) → x ≠ 5 →
        cellOutlier (outlierBounds (dropna [some 5, some 5, none])).1
          (outlierBounds (dropna [some 5, some 5, none])).2 (some x) = true) ∧
      (check_for_outliers dfProfit "profit").getField "outlier_percentage" =
        some (JVal.num (round2 (100 *
          ((([some (5 : ℚ), some 5, none] : List (Option ℚ)).filter
            (spec_differsFrom 5)).length : ℚ) / (dfProfit.nrows : ℚ))))) := by
  have hall : ∀ x ∈ dropna [some (5 : ℚ), some 5, none], x = (5 : ℚ) := by
    intro x hx
    simp [dropna] at hx
    exact hx
  exact ⟨⟨rfl, rfl, by decide, hall⟩,
    claim_C5_iqr_zero dfProfit "profit" [some 5, some 5, none] 5 rfl rfl (by decide) hall⟩
